import Mathlib

/-
Verification development for `dehydrate/fields.py` (python-dehydrate).

The module is Python 2 code (it uses `basestring`, `unicode_literals`, and
`collections.Iterable`/`Mapping` ABCs).  We shallow-embed the fragment of
Python 2 semantics the module exercises:

* Python values are an inductive `PyVal`; callables that arise in the module
  (a dehydrator getter method, `partial(attrgetter(x), obj)`) are first-order
  constructors.
* Exceptions become `Except PyErr`; `PyErr` carries the exception class and
  its message (Python 2 `e.message`).
* Python 2 ABC facts used: `str`/`unicode` satisfy `isinstance(v, Iterable)`
  (the stdlib registers `basestring` on `Sequence`, a subclass of
  `Iterable`); generators satisfy it too but have no `len()`; iterating a
  mapping yields its keys; `map` is eager and returns a list.
-/

inductive PyErr where
  | typeError : String → PyErr
  | attributeError : String → PyErr
  | keyError : String → PyErr
  | valueError : String → PyErr
  | indexError : String → PyErr
  | specParsingError : String → PyErr
deriving DecidableEq

/-- Python 2 `e.message`: the single argument the exception was raised with. -/
def PyErr.message : PyErr → String
  | .typeError m => m
  | .attributeError m => m
  | .keyError m => m
  | .valueError m => m
  | .indexError m => m
  | .specParsingError m => m

/-- The fragment of Python values the module manipulates.  `gen` is an
iterable that does not support `len()` (e.g. a generator).  `fnConst v` is a
bound method that returns `v` when called with one argument (the shape of a
dehydrator getter used in the examples); `fnAttrThunk a o` is
`partial(attrgetter(a), o)` exactly as `Field.resolve_target` builds it:
note the first component is the looked-up attribute VALUE, because the
source passes `object_attribute` (not the attribute name) to `attrgetter`. -/
inductive PyVal where
  | none : PyVal
  | boolean : Bool → PyVal
  | int : Int → PyVal
  | str : String → PyVal
  | pylist : List PyVal → PyVal
  | tuple : List PyVal → PyVal
  | mapping : List (String × PyVal) → PyVal
  | gen : List PyVal → PyVal
  | obj : List (String × PyVal) → PyVal
  | clsRef : String → PyVal
  | fnConst : PyVal → PyVal
  | fnAttrThunk : PyVal → PyVal → PyVal

/-- Association-list lookup used for object attributes, dehydrator members
and mapping keys. -/
def lookupStr (l : List (String × PyVal)) (k : String) : Option PyVal :=
  match l.find? (fun kv => kv.1 == k) with
  | some kv => some kv.2
  | Option.none => Option.none

/-- `is_string` from fields.py: `isinstance(val, basestring)`. -/
def is_string : PyVal → Bool
  | .str _ => true
  | _ => false

/-- `is_dict` from fields.py: `isinstance(val, Mapping)`. -/
def is_dict : PyVal → Bool
  | .mapping _ => true
  | _ => false

/-- `is_iterable` from fields.py: `isinstance(val, collections.Iterable)`.
In Python 2 this is true for `str`/`unicode` (registered on `Sequence`),
lists, tuples, dicts and generators; false for plain objects without
`__iter__`, `None`, numbers, booleans and functions. -/
def is_iterable : PyVal → Bool
  | .str _ => true
  | .pylist _ => true
  | .tuple _ => true
  | .mapping _ => true
  | .gen _ => true
  | _ => false

/-- Python `len(val)`: defined for strings, lists, tuples and mappings;
a generator (iterable without `__len__`) raises `TypeError`. -/
def pyLen : PyVal → Except PyErr Nat
  | .str s => .ok s.length
  | .pylist l => .ok l.length
  | .tuple l => .ok l.length
  | .mapping m => .ok m.length
  | .gen _ => .error (.typeError "object of type 'generator' has no len()")
  | _ => .error (.typeError "object has no len()")

/-- `is_pair` from fields.py: `is_iterable(val) and len(val) == 2`.
The `and` short-circuits, so `len` is only evaluated on iterables; on an
iterable without `len()` the `TypeError` escapes. -/
def is_pair (val : PyVal) : Except PyErr Bool :=
  if is_iterable val then
    match pyLen val with
    | .error e => .error e
    | .ok n => .ok (n == 2)
  else .ok false

/-- The list of elements Python iteration yields: characters of a string
(as one-character strings), elements of a list/tuple/generator, KEYS of a
mapping. -/
def pyIterElems : PyVal → Except PyErr (List PyVal)
  | .str s => .ok (s.data.map (fun c => PyVal.str c.toString))
  | .pylist l => .ok l
  | .tuple l => .ok l
  | .gen l => .ok l
  | .mapping m => .ok (m.map (fun kv => PyVal.str kv.1))
  | _ => .error (.typeError "object is not iterable")

/-- Python `val[i]` for a small integer index, as `is_relevant` uses it. -/
def pyIndex : PyVal → Nat → Except PyErr PyVal
  | .pylist l, i =>
    match l.get? i with
    | some v => .ok v
    | Option.none => .error (.indexError "list index out of range")
  | .tuple l, i =>
    match l.get? i with
    | some v => .ok v
    | Option.none => .error (.indexError "tuple index out of range")
  | .str s, i =>
    match s.data.get? i with
    | some c => .ok (.str c.toString)
    | Option.none => .error (.indexError "string index out of range")
  | .mapping _, _ => .error (.keyError "0")
  | _, _ => .error (.typeError "object is unsubscriptable")

/-- Substring search over character lists (Python `sub in s` on strings). -/
def hasSubstring (pat : List Char) : List Char → Bool
  | [] => pat.isEmpty
  | c :: t => pat.isPrefixOf (c :: t) || hasSubstring pat t

/-- Python `k in val` for a string `k`: key membership for a mapping,
substring for a string, element equality for a list/tuple/generator;
`TypeError` otherwise. -/
def pyContains (val : PyVal) (k : String) : Except PyErr Bool :=
  match val with
  | .mapping m => .ok (m.any (fun kv => kv.1 == k))
  | .str s => .ok (hasSubstring k.data s.data)
  | .pylist l => .ok (l.any (fun x => match x with | .str s => s == k | _ => false))
  | .tuple l => .ok (l.any (fun x => match x with | .str s => s == k | _ => false))
  | .gen l => .ok (l.any (fun x => match x with | .str s => s == k | _ => false))
  | _ => .error (.typeError "argument of type is not iterable")

/-- Python `val.get(k, default)` (and `.get(k)` with `default = None`):
only mappings have `.get`; on anything else the attribute access raises
`AttributeError`. -/
def mGet (val : PyVal) (k : String) (default : PyVal) : Except PyErr PyVal :=
  match val with
  | .mapping m =>
    match lookupStr m k with
    | some v => .ok v
    | Option.none => .ok default
  | _ => .error (.attributeError "object has no attribute get")

/-- Python `val[k]` for a string key: mapping lookup (`KeyError` when
absent); a string index with a string raises `TypeError`. -/
def mIndex (val : PyVal) (k : String) : Except PyErr PyVal :=
  match val with
  | .mapping m =>
    match lookupStr m k with
    | some v => .ok v
    | Option.none => .error (.keyError k)
  | _ => .error (.typeError "indices must be integers")

/-- Python truthiness of the modelled values (used by `substitution or
self.target` and `if self.is_iterable`). -/
def pyTruthy : PyVal → Bool
  | .none => false
  | .boolean b => b
  | .int n => !(n == 0)
  | .str s => !(s == "")
  | .pylist l => !l.isEmpty
  | .tuple l => !l.isEmpty
  | .mapping m => !m.isEmpty
  | .gen _ => true
  | .obj _ => true
  | .clsRef _ => true
  | .fnConst _ => true
  | .fnAttrThunk _ _ => true

/-- Python `callable(val)`. -/
def isCallable : PyVal → Bool
  | .fnConst _ => true
  | .fnAttrThunk _ _ => true
  | .clsRef _ => true
  | _ => false

/-- `getattr(obj, name)` on the target object, as an `Option` (`hasattr`
is `Option.isSome`).  Only plain objects carry attributes in the modelled
fragment. -/
def objGetattr : PyVal → String → Option PyVal
  | .obj attrs, n => lookupStr attrs n
  | _, _ => Option.none

/-- Calling a value with exactly one positional argument, as
`target_getter(obj)` does in both `build_value` implementations:
* a dehydrator getter (bound one-argument method) returns its value;
* `partial(attrgetter(a), o)` called with one more argument passes TWO
  arguments to the `attrgetter` object, which raises
  `TypeError: attrgetter expected 1 arguments, got 2`;
* `None` (the fall-through result of `resolve_target`) is not callable. -/
def call1 (f : PyVal) (_arg : PyVal) : Except PyErr PyVal :=
  match f with
  | .fnConst v => .ok v
  | .fnAttrThunk _ _ => .error (.typeError "attrgetter expected 1 arguments, got 2")
  | .clsRef _ => .error (.typeError "class instantiation outside the modelled fragment")
  | .none => .error (.typeError "'NoneType' object is not callable")
  | _ => .error (.typeError "object is not callable")

/-- The slice of the owning dehydrator `Field` uses: its `GETTER_PREFIX`
constant, its member namespace (`hasattr`/`getattr` lookups of getter
methods), and its runtime type (`type(self.dehydrator)`), which matters
only for comparing against the default nested-dehydrator class. -/
structure Dehydrator where
  GETTER_PREFIX : String
  members : List (String × PyVal)
  cls : String

/-- A constructed field instance: `self.dehydrator`, `self.target_info`,
`self.substitution` (the latter is `PyVal.none` for a spec that is not a
pair). -/
structure PyField where
  dehydrator : Dehydrator
  target_info : PyVal
  substitution : PyVal

/-- `Field.validate_target_info`: the default hook does nothing. -/
def Field.validate_target_info (_ : PyVal) : Except PyErr Unit := .ok ()

/-- The destructuring half of `Field.parse_spec`:
`if is_pair(spec): target_info, substitution = spec
 else: target_info = spec; substitution = None`.
Unpacking iterates the spec (a two-element mapping unpacks into its two
keys, a two-character string into its two characters). -/
def Field.destructure (spec : PyVal) : Except PyErr (PyVal × PyVal) :=
  match is_pair spec with
  | .error e => .error e
  | .ok true =>
    match pyIterElems spec with
    | .error e => .error e
    | .ok [a, b] => .ok (a, b)
    | .ok _ => .error (.valueError "unpacking expected 2 values")
  | .ok false => .ok (spec, .none)

/-- `Field.parse_spec`, parameterised by the (virtually dispatched)
`validate_target_info` hook: destructure, then run the hook inside
`try: ... except Exception as e: raise SpecParsingError(e.message)`. -/
def Field.parse_spec (validate : PyVal → Except PyErr Unit) (spec : PyVal) :
    Except PyErr (PyVal × PyVal) :=
  match Field.destructure spec with
  | .error e => .error e
  | .ok (ti, sub) =>
    match validate ti with
    | .ok _ => .ok (ti, sub)
    | .error e => .error (.specParsingError e.message)

/-- `Field.resolve_target(obj, target_name)`:
1. look for `GETTER_PREFIX + target_name` on the dehydrator and return it;
2. else, if the object has the attribute: return it if callable, else
   return `partial(attrgetter(object_attribute), obj)` — the source passes
   the attribute VALUE to `attrgetter`;
3. else fall off the end of the function, i.e. return Python `None`.
The prefix concatenation requires a string target name. -/
def Field.resolve_target (f : PyField) (ob : PyVal) (target_name : PyVal) :
    Except PyErr PyVal :=
  match target_name with
  | .str tn =>
    match lookupStr f.dehydrator.members (f.dehydrator.GETTER_PREFIX ++ tn) with
    | some m => .ok m
    | Option.none =>
      match objGetattr ob tn with
      | some a => .ok (if isCallable a then a else .fnAttrThunk a ob)
      | Option.none => .ok .none
  | _ => .error (.typeError "cannot concatenate str and non-str")

/-- `SimpleField.is_relevant`: a string, or a pair whose iterated elements
are all strings. -/
def SimpleField.is_relevant (spec : PyVal) : Except PyErr Bool :=
  if is_string spec then .ok true
  else
    match is_pair spec with
    | .error e => .error e
    | .ok true =>
      match pyIterElems spec with
      | .error e => .error e
      | .ok elems => .ok (elems.all is_string)
    | .ok false => .ok false

/-- `SimpleField.target` is `self.target_info` itself. -/
def SimpleField.target (f : PyField) : PyVal := f.target_info

/-- `Field.build_key` for a simple field: `self.substitution or self.target`
(Python `or`, i.e. truthiness of the substitution). -/
def SimpleField.build_key (f : PyField) : PyVal :=
  if pyTruthy f.substitution then f.substitution else SimpleField.target f

/-- Constructing a `SimpleField`: `Field.__init__` parses the spec with the
default (no-op) validation hook. -/
def SimpleField.init (dehydrator : Dehydrator) (spec : PyVal) :
    Except PyErr PyField :=
  (Field.parse_spec Field.validate_target_info spec).map
    (fun ts => ⟨dehydrator, ts.1, ts.2⟩)

/-- `SimpleField.build_value(obj)`: resolve the getter for `self.target`
and call it with `obj`. -/
def SimpleField.build_value (f : PyField) (ob : PyVal) : Except PyErr PyVal :=
  match Field.resolve_target f ob (SimpleField.target f) with
  | .error e => .error e
  | .ok g => call1 g ob

/-- `ComplexField.is_relevant`: a mapping, or a pair `(mapping, string)`
(the `and` chain short-circuits: `spec[0]` and `spec[1]` are only indexed
after `is_pair` succeeds, and `spec[1]` only when `spec[0]` is a dict). -/
def ComplexField.is_relevant (spec : PyVal) : Except PyErr Bool :=
  if is_dict spec then .ok true
  else
    match is_pair spec with
    | .error e => .error e
    | .ok true =>
      match pyIndex spec 0 with
      | .error e => .error e
      | .ok x0 =>
        if is_dict x0 then
          match pyIndex spec 1 with
          | .error e => .error e
          | .ok x1 => .ok (is_string x1)
        else .ok false
    | .ok false => .ok false

/-- `ComplexField.validate_target_info`: raise `SpecParsingError` unless
`'target' in target_info` (note: Python `in`, so a STRING target_info is
checked for the SUBSTRING `"target"`). -/
def ComplexField.validate_target_info (target_info : PyVal) :
    Except PyErr Unit :=
  match pyContains target_info "target" with
  | .error e => .error e
  | .ok true => .ok ()
  | .ok false =>
    .error (.specParsingError
      "'target' field is required in specification of ComplexField")

/-- Constructing a `ComplexField`: `Field.__init__` with the overridden
validation hook. -/
def ComplexField.init (dehydrator : Dehydrator) (spec : PyVal) :
    Except PyErr PyField :=
  (Field.parse_spec ComplexField.validate_target_info spec).map
    (fun ts => ⟨dehydrator, ts.1, ts.2⟩)

/-- `ComplexField.target`: `self.target_info[TARGET_FIELD_NAME]`. -/
def ComplexField.target (f : PyField) : Except PyErr PyVal :=
  mIndex f.target_info "target"

/-- `Field.build_key` for a complex field: `self.substitution or
self.target`. -/
def ComplexField.build_key (f : PyField) : Except PyErr PyVal :=
  if pyTruthy f.substitution then .ok f.substitution
  else ComplexField.target f

/-- `ComplexField.is_iterable`: `self.target_info.get('iterable', False)`. -/
def ComplexField.is_iterable (f : PyField) : Except PyErr PyVal :=
  mGet f.target_info "iterable" (.boolean false)

/-- The default nested-dehydrator class: fields.py does
`from dehydrate.base import Dehydrator` inside the property and returns
that class object — a FIXED class, independent of the enclosing
dehydrator's runtime type. -/
def baseDehydratorCls : PyVal := .clsRef "dehydrate.base.Dehydrator"

/-- `ComplexField.dehydrator_cls`:
`self.target_info.get('dehydrator', Dehydrator)` with the late-imported
base class as default. -/
def ComplexField.dehydrator_cls (f : PyField) : Except PyErr PyVal :=
  mGet f.target_info "dehydrator" baseDehydratorCls

/-- `ComplexField.fields`: `self.target_info.get('fields')` (default
`None`). -/
def ComplexField.fields (f : PyField) : Except PyErr PyVal :=
  mGet f.target_info "fields" .none

/-- `ComplexField.build_value(obj)`.  The nested call
`self.dehydrator_cls(fields=self.fields).dehydrate(x)` lives in
`dehydrate/base.py`, which is not part of the sources; it is abstracted as
the parameter `dehyd cls fields x`.  Evaluation order follows the source:
resolve and call the getter, read `dehydrator_cls` then `fields` (callee
before keyword argument), then branch on `is_iterable`: the iterable
branch is Python 2 `map(dehydrator.dehydrate, target)` (an eager list over
the iterated elements), the other branch dehydrates `obj` itself. -/
def ComplexField.build_value
    (dehyd : PyVal → PyVal → PyVal → Except PyErr PyVal)
    (f : PyField) (ob : PyVal) : Except PyErr PyVal :=
  match ComplexField.target f with
  | .error e => .error e
  | .ok t =>
    match Field.resolve_target f ob t with
    | .error e => .error e
    | .ok g =>
      match call1 g ob with
      | .error e => .error e
      | .ok target =>
        match ComplexField.dehydrator_cls f with
        | .error e => .error e
        | .ok cls =>
          match ComplexField.fields f with
          | .error e => .error e
          | .ok flds =>
            match ComplexField.is_iterable f with
            | .error e => .error e
            | .ok itFlag =>
              if pyTruthy itFlag then
                match pyIterElems target with
                | .error e => .error e
                | .ok elems => (elems.mapM (dehyd cls flds)).map .pylist
              else dehyd cls flds ob

/-- A dehydrator with the default getter prefix and no override getters. -/
def deh0 : Dehydrator := ⟨"get_", [], "Dehydrator"⟩

/-- An object with the single plain attribute `name = "Ada"`. -/
def objAda : PyVal := .obj [("name", .str "Ada")]

/-- An object whose `children` attribute is a two-element list of objects
with `name` `"A"` and `"B"`. -/
def obj3 : PyVal :=
  .obj [("children", .pylist [.obj [("name", .str "A")], .obj [("name", .str "B")]])]

/-- The complex field parsed from
`{"target": "children", "iterable": True, "fields": ["name"]}` owned by a
plain dehydrator. -/
def f3 : PyField :=
  ⟨deh0, .mapping [("target", .str "children"), ("iterable", .boolean true),
    ("fields", .pylist [.str "name"])], .none⟩

/-- A complex field from `{"target": "x"}` whose dehydrator overrides
extraction with a `get_x` getter, so resolution and invocation succeed. -/
def f4 : PyField :=
  ⟨⟨"get_", [("get_x", .fnConst (.str "tv"))], "Dehydrator"⟩,
    .mapping [("target", .str "x")], .none⟩

/-- A complex field from `{"target": "x"}` (no `fields` entry) with a
working `get_x` getter. -/
def f10 : PyField :=
  ⟨⟨"get_", [("get_x", .fnConst .none)], "Dehydrator"⟩,
    .mapping [("target", .str "x")], .none⟩

/-- A concrete stand-in for the nested `dehydrate` call, used to
instantiate theorems that hold for every such function. -/
def dehydShallow : PyVal → PyVal → PyVal → Except PyErr PyVal :=
  fun _ _ ob => .ok ob

/-- An enclosing dehydrator whose runtime type is a SUBTYPE of the base
`Dehydrator` class. -/
def dehU : Dehydrator := ⟨"get_", [], "UserDehydrator"⟩

/-- A complex field owned by `dehU`, whose mapping has no `dehydrator`
entry. -/
def fU : PyField := ⟨dehU, .mapping [("target", .str "x")], .none⟩

/-- Claim C1, counterexample.  With an object and dehydrator that both lack
the named capability (shown by the first two conjuncts), `resolve_target`
does NOT signal an error: it falls off the end of the function and returns
Python `None` — a null/placeholder value. -/
theorem resolve_target_missing_capability_cex :
    lookupStr deh0.members ("get_" ++ "age") = Option.none
    ∧ objGetattr (.obj []) "age" = Option.none
    ∧ Field.resolve_target ⟨deh0, .str "age", .none⟩ (.obj []) (.str "age") =
        .ok PyVal.none :=
  ⟨rfl, rfl, rfl⟩

/-- Claim C1, amended.  When neither the dehydrator nor the object exposes
the named capability, `resolve_target` returns `None` (it raises no
`TargetResolutionError`; no such exception appears in fields.py), and both
`SimpleField.build_value` and `ComplexField.build_value` then fail by
calling that `None`, raising `TypeError: 'NoneType' object is not
callable`, which propagates uncaught — so `build_value` still never
produces a value for an unresolvable target. -/
theorem resolve_target_missing_capability_behaviour
    (deh : Dehydrator) (ob : PyVal) (tn : String) (sub : PyVal)
    (h1 : lookupStr deh.members (deh.GETTER_PREFIX ++ tn) = Option.none)
    (h2 : objGetattr ob tn = Option.none) :
    Field.resolve_target ⟨deh, .str tn, sub⟩ ob (.str tn) = .ok .none
    ∧ SimpleField.build_value ⟨deh, .str tn, sub⟩ ob =
        .error (.typeError "'NoneType' object is not callable")
    ∧ ∀ (dehyd : PyVal → PyVal → PyVal → Except PyErr PyVal) (ti : PyVal),
        ComplexField.target ⟨deh, ti, sub⟩ = .ok (.str tn) →
        ComplexField.build_value dehyd ⟨deh, ti, sub⟩ ob =
          .error (.typeError "'NoneType' object is not callable") := by
  have hres : Field.resolve_target ⟨deh, .str tn, sub⟩ ob (.str tn) = .ok .none := by
    simp [Field.resolve_target, h1, h2]
  refine ⟨hres, ?_, ?_⟩
  · simp [SimpleField.build_value, SimpleField.target, hres, call1]
  · intro dehyd ti hti
    have hres2 : Field.resolve_target ⟨deh, ti, sub⟩ ob (.str tn) = .ok .none := by
      simp [Field.resolve_target, h1, h2]
    simp [ComplexField.build_value, hti, hres2, call1]

/-- Claim C1, witness for the amended theorem at a concrete input. -/
theorem resolve_target_missing_capability_behaviour_witness :
    Field.resolve_target ⟨deh0, .str "age", .str "x"⟩ (.obj []) (.str "age") = .ok .none
    ∧ SimpleField.build_value ⟨deh0, .str "age", .str "x"⟩ (.obj []) =
        .error (.typeError "'NoneType' object is not callable")
    ∧ ComplexField.build_value dehydShallow
        ⟨deh0, .mapping [("target", .str "age")], .str "x"⟩ (.obj []) =
        .error (.typeError "'NoneType' object is not callable") := by
  obtain ⟨a, b, c⟩ :=
    resolve_target_missing_capability_behaviour deh0 (.obj []) "age" (.str "x") rfl rfl
  exact ⟨a, b, c dehydShallow (.mapping [("target", .str "age")]) rfl⟩

/-- Claim C2: the code at the failing input.  For an object with the plain
attribute `name = "Ada"` and spec `"name"`, `resolve_target` returns
`partial(attrgetter("Ada"), obj)` — `attrgetter` applied to the attribute
VALUE, not a thunk reading the `name` attribute — and
`SimpleField.build_value(obj)` then calls it with `obj` as an extra
argument and raises `TypeError: attrgetter expected 1 arguments, got 2`
instead of returning `"Ada"`. -/
theorem simple_build_value_plain_attribute_raises :
    Field.resolve_target ⟨deh0, .str "name", .none⟩ objAda (.str "name") =
      .ok (.fnAttrThunk (.str "Ada") objAda)
    ∧ SimpleField.build_value ⟨deh0, .str "name", .none⟩ objAda =
      .error (.typeError "attrgetter expected 1 arguments, got 2") :=
  ⟨rfl, rfl⟩

/-- Claim C3: the code at the failing input.  For spec
`{"target": "children", "iterable": True, "fields": ["name"]}` and an
object whose `children` is a plain list attribute,
`ComplexField.build_value` resolves `children` to the broken
`partial(attrgetter(<list>), obj)` thunk and raises `TypeError` when it
invokes it, whatever the nested dehydrate operation is — it never reaches
the per-element dehydration, so it cannot produce
`[{"name": "A"}, {"name": "B"}]`. -/
theorem complex_build_value_iterable_example_raises :
    ∀ dehyd : PyVal → PyVal → PyVal → Except PyErr PyVal,
      ComplexField.build_value dehyd f3 obj3 =
        .error (.typeError "attrgetter expected 1 arguments, got 2") :=
  fun _ => rfl

/-- Claim C4 (confirmed): for a complex field whose descriptor's
`iterable` entry is absent or `False`, whenever the target getter is
resolved and invoked successfully (the invocation is on the execution path
— hypotheses h2/h3), `build_value` applies the nested dehydrator to the
original `obj`, not to the resolved `target_value` `tv`, which does not
appear in the result at all. -/
theorem complex_build_value_non_iterable_uses_obj
    (dehyd : PyVal → PyVal → PyVal → Except PyErr PyVal)
    (f : PyField) (ob t g tv cls flds : PyVal)
    (h1 : ComplexField.target f = .ok t)
    (h2 : Field.resolve_target f ob t = .ok g)
    (h3 : call1 g ob = .ok tv)
    (h4 : ComplexField.dehydrator_cls f = .ok cls)
    (h5 : ComplexField.fields f = .ok flds)
    (h6 : ComplexField.is_iterable f = .ok (.boolean false)) :
    ComplexField.build_value dehyd f ob = dehyd cls flds ob := by
  simp [ComplexField.build_value, h1, h2, h3, h4, h5, h6, pyTruthy]

/-- Claim C4, witness: a concrete complex field with a working dehydrator
getter and no `iterable` entry. -/
theorem complex_build_value_non_iterable_uses_obj_witness :
    ComplexField.build_value dehydShallow f4 (.obj []) =
      dehydShallow baseDehydratorCls .none (.obj []) :=
  complex_build_value_non_iterable_uses_obj dehydShallow f4 (.obj [])
    (.str "x") (.fnConst (.str "tv")) (.str "tv") baseDehydratorCls .none
    rfl rfl rfl rfl rfl rfl

/-- Claim C5, counterexample.  A two-entry mapping with no `target` key
(first conjunct) is misclassified as a pair by `is_pair`, destructured into
its two KEYS, and — because both keys contain the SUBSTRING `"target"` —
`ComplexField`'s validation passes and construction succeeds instead of
failing with `SpecParsingError`. -/
theorem two_entry_mapping_without_target_parses_cex :
    pyContains (.mapping [("targets", .int 1), ("target2", .int 2)]) "target" =
      .ok false
    ∧ Field.parse_spec ComplexField.validate_target_info
        (.mapping [("targets", .int 1), ("target2", .int 2)]) =
      .ok (.str "targets", .str "target2") :=
  ⟨rfl, rfl⟩

/-- Claim C5, amended.  Parsing a mapping spec lacking a `target` key fails
with `SpecParsingError` naming the `target` field and the `ComplexField`
class, provided the mapping does not have exactly two entries (a two-entry
mapping is destructured into its keys by the pair check, and validation
degenerates to a substring test on its first key); a pair
`(mapping, override)` whose mapping lacks `target` always fails that way;
and in general every failure raised inside `validate_target_info` is
re-raised by `parse_spec` as a `SpecParsingError` carrying the original
failure's message. -/
theorem complex_parse_spec_missing_target_errors :
    (∀ m : List (String × PyVal),
      m.any (fun kv => kv.1 == "target") = false →
      (m.length == 2) = false →
      Field.parse_spec ComplexField.validate_target_info (.mapping m) =
        .error (.specParsingError
          "'target' field is required in specification of ComplexField"))
    ∧ (∀ (m : List (String × PyVal)) (x : PyVal),
      m.any (fun kv => kv.1 == "target") = false →
      Field.parse_spec ComplexField.validate_target_info (.tuple [.mapping m, x]) =
        .error (.specParsingError
          "'target' field is required in specification of ComplexField"))
    ∧ (∀ (validate : PyVal → Except PyErr Unit) (spec ti sub : PyVal) (e : PyErr),
      Field.destructure spec = .ok (ti, sub) →
      validate ti = .error e →
      Field.parse_spec validate spec = .error (.specParsingError e.message)) := by
  refine ⟨?_, ?_, ?_⟩
  · intro m hk hl
    simp [Field.parse_spec, Field.destructure, is_pair, is_iterable, pyLen, hl,
      ComplexField.validate_target_info, pyContains, hk, PyErr.message]
  · intro m x hk
    simp [Field.parse_spec, Field.destructure, is_pair, is_iterable, pyLen,
      pyIterElems, ComplexField.validate_target_info, pyContains, hk,
      PyErr.message]
  · intro validate spec ti sub e hd hv
    simp [Field.parse_spec, hd, hv]

/-- Claim C5, witness for the amended theorem at concrete inputs. -/
theorem complex_parse_spec_missing_target_errors_witness :
    Field.parse_spec ComplexField.validate_target_info
      (.mapping [("fields", .none)]) =
      .error (.specParsingError
        "'target' field is required in specification of ComplexField")
    ∧ Field.parse_spec ComplexField.validate_target_info
        (.tuple [.mapping [], .str "k"]) =
      .error (.specParsingError
        "'target' field is required in specification of ComplexField")
    ∧ Field.parse_spec ComplexField.validate_target_info (.mapping []) =
      .error (.specParsingError
        (PyErr.specParsingError
          "'target' field is required in specification of ComplexField").message) :=
  ⟨complex_parse_spec_missing_target_errors.1 [("fields", .none)] rfl rfl,
   complex_parse_spec_missing_target_errors.2.1 [] (.str "k") rfl,
   complex_parse_spec_missing_target_errors.2.2 ComplexField.validate_target_info
     (.mapping []) (.mapping []) .none
     (.specParsingError "'target' field is required in specification of ComplexField")
     rfl rfl⟩

/-- Claim C6, counterexample.  `is_pair` evaluates `len(val)` on anything
passing the iterability check, and a generator (iterable without `len()`)
makes that call raise `TypeError`, which escapes from BOTH
`SimpleField.is_relevant` and `ComplexField.is_relevant` — they are not
total. -/
theorem is_relevant_generator_raises_cex :
    SimpleField.is_relevant (.gen [.str "a", .str "b"]) =
      .error (.typeError "object of type 'generator' has no len()")
    ∧ ComplexField.is_relevant (.gen [.str "a", .str "b"]) =
      .error (.typeError "object of type 'generator' has no len()") :=
  ⟨rfl, rfl⟩

/-- Claim C6, amended.  On every raw specification value that is not an
iterable lacking `len()` support (modelled by the `gen` constructor), both
`SimpleField.is_relevant` and `ComplexField.is_relevant` are total and
side-effect-free: they return a boolean and never raise.  (On a len-less
iterable the `len` call inside `is_pair` raises `TypeError`, see the
counterexample.) -/
theorem is_relevant_total_off_lenless_iterables (v : PyVal) (h : ∀ l, v ≠ .gen l) :
    (∃ b, SimpleField.is_relevant v = .ok b) ∧ (∃ b, ComplexField.is_relevant v = .ok b) := by
  cases v with
  | gen l => exact absurd rfl (h l)
  | str s =>
    obtain ⟨l⟩ := s
    refine ⟨⟨true, rfl⟩, ?_⟩
    cases hl : l.length == 2 with
    | false =>
      exact ⟨false, by simp [ComplexField.is_relevant, is_dict, is_pair, is_iterable,
        pyLen, String.length, hl]⟩
    | true =>
      have h2 : l.length = 2 := by simpa using hl
      obtain ⟨a, b, hab⟩ := List.length_eq_two.mp h2
      subst hab
      exact ⟨false, rfl⟩
  | pylist l =>
    constructor
    · cases hl : l.length == 2 with
      | false =>
        exact ⟨false, by simp [SimpleField.is_relevant, is_string, is_pair, is_iterable, pyLen, hl]⟩
      | true =>
        exact ⟨l.all is_string, by simp [SimpleField.is_relevant, is_string, is_pair,
          is_iterable, pyLen, hl, pyIterElems]⟩
    · cases hl : l.length == 2 with
      | false =>
        exact ⟨false, by simp [ComplexField.is_relevant, is_dict, is_pair, is_iterable, pyLen, hl]⟩
      | true =>
        have h2 : l.length = 2 := by simpa using hl
        obtain ⟨a, b, hab⟩ := List.length_eq_two.mp h2
        subst hab
        cases hd : is_dict a with
        | true =>
          exact ⟨is_string b, by simp [ComplexField.is_relevant, is_pair, is_iterable,
            pyLen, pyIndex, hd, show is_dict (PyVal.pylist [a, b]) = false from rfl]⟩
        | false =>
          exact ⟨false, by simp [ComplexField.is_relevant, is_pair, is_iterable,
            pyLen, pyIndex, hd, show is_dict (PyVal.pylist [a, b]) = false from rfl]⟩
  | tuple l =>
    constructor
    · cases hl : l.length == 2 with
      | false =>
        exact ⟨false, by simp [SimpleField.is_relevant, is_string, is_pair, is_iterable, pyLen, hl]⟩
      | true =>
        exact ⟨l.all is_string, by simp [SimpleField.is_relevant, is_string, is_pair,
          is_iterable, pyLen, hl, pyIterElems]⟩
    · cases hl : l.length == 2 with
      | false =>
        exact ⟨false, by simp [ComplexField.is_relevant, is_dict, is_pair, is_iterable, pyLen, hl]⟩
      | true =>
        have h2 : l.length = 2 := by simpa using hl
        obtain ⟨a, b, hab⟩ := List.length_eq_two.mp h2
        subst hab
        cases hd : is_dict a with
        | true =>
          exact ⟨is_string b, by simp [ComplexField.is_relevant, is_pair, is_iterable,
            pyLen, pyIndex, hd, show is_dict (PyVal.tuple [a, b]) = false from rfl]⟩
        | false =>
          exact ⟨false, by simp [ComplexField.is_relevant, is_pair, is_iterable,
            pyLen, pyIndex, hd, show is_dict (PyVal.tuple [a, b]) = false from rfl]⟩
  | mapping m =>
    refine ⟨?_, ⟨true, rfl⟩⟩
    cases hm : m.length == 2 with
    | false =>
      exact ⟨false, by simp [SimpleField.is_relevant, is_string, is_pair, is_iterable, pyLen, hm]⟩
    | true =>
      exact ⟨(m.map (fun kv => PyVal.str kv.1)).all is_string,
        by simp [SimpleField.is_relevant, is_string, is_pair, is_iterable, pyLen, hm, pyIterElems]⟩
  | none => exact ⟨⟨false, rfl⟩, ⟨false, rfl⟩⟩
  | boolean b => exact ⟨⟨false, rfl⟩, ⟨false, rfl⟩⟩
  | int n => exact ⟨⟨false, rfl⟩, ⟨false, rfl⟩⟩
  | obj a => exact ⟨⟨false, rfl⟩, ⟨false, rfl⟩⟩
  | clsRef c => exact ⟨⟨false, rfl⟩, ⟨false, rfl⟩⟩
  | fnConst x => exact ⟨⟨false, rfl⟩, ⟨false, rfl⟩⟩
  | fnAttrThunk x y => exact ⟨⟨false, rfl⟩, ⟨false, rfl⟩⟩

/-- Claim C6, witness for the amended theorem at a concrete input. -/
theorem is_relevant_total_off_lenless_iterables_witness :
    (∃ b, SimpleField.is_relevant (.str "x") = .ok b)
    ∧ (∃ b, ComplexField.is_relevant (.str "x") = .ok b) :=
  is_relevant_total_off_lenless_iterables (.str "x") (fun _ h => nomatch h)

/-- Claim C7, counterexample.  For spec `("age", "")` the parsed
substitution is the empty string (first conjunct), yet `build_key` returns
`"age"`, not the override: `self.substitution or self.target` discards a
falsy (empty-string) substitution. -/
theorem build_key_empty_override_cex :
    (SimpleField.init deh0 (.tuple [.str "age", .str ""])).map
        (fun f => f.substitution) = .ok (.str "")
    ∧ (SimpleField.init deh0 (.tuple [.str "age", .str ""])).map
        SimpleField.build_key = .ok (.str "age")
    ∧ (PyVal.str "age") ≠ .str "" :=
  ⟨rfl, rfl, fun h => absurd (PyVal.str.inj h) (by decide)⟩

/-- Claim C7, amended.  `build_key` returns the substitution when one is
present AND truthy, else the target name: a pair spec `(t, s)` with `s`
non-empty yields key `s`; a bare-name spec `t` (of length ≠ 2, so the pair
check does not destructure it) yields `t`; and a pair spec with an
empty-string override falls back to the target name `t`. -/
theorem build_key_truthy_override (d : Dehydrator) (t s : String)
    (hs : (s == "") = false) (ht : (t.length == 2) = false) :
    (SimpleField.init d (.tuple [.str t, .str s])).map SimpleField.build_key =
      .ok (.str s)
    ∧ (SimpleField.init d (.str t)).map SimpleField.build_key = .ok (.str t)
    ∧ (SimpleField.init d (.tuple [.str t, .str ""])).map SimpleField.build_key =
      .ok (.str t) := by
  refine ⟨?_, ?_, ?_⟩
  · simp [SimpleField.init, Field.parse_spec, Field.destructure, is_pair,
      is_iterable, pyLen, pyIterElems, Field.validate_target_info, Except.map,
      SimpleField.build_key, SimpleField.target, pyTruthy, hs]
  · simp [SimpleField.init, Field.parse_spec, Field.destructure, is_pair,
      is_iterable, pyLen, ht, Field.validate_target_info, Except.map,
      SimpleField.build_key, SimpleField.target, pyTruthy]
  · simp [SimpleField.init, Field.parse_spec, Field.destructure, is_pair,
      is_iterable, pyLen, pyIterElems, Field.validate_target_info, Except.map,
      SimpleField.build_key, SimpleField.target, pyTruthy]

/-- Claim C7, witness: spec `("age", "years")` yields key `"years"` and
spec `"age"` yields key `"age"`. -/
theorem build_key_truthy_override_witness :
    (SimpleField.init deh0 (.tuple [.str "age", .str "years"])).map
        SimpleField.build_key = .ok (.str "years")
    ∧ (SimpleField.init deh0 (.str "age")).map SimpleField.build_key =
        .ok (.str "age")
    ∧ (SimpleField.init deh0 (.tuple [.str "age", .str ""])).map
        SimpleField.build_key = .ok (.str "age") :=
  build_key_truthy_override deh0 "age" "years" (by decide) (by decide)

/-- Claim C8, counterexample.  For a complex field owned by a dehydrator of
the subtype `UserDehydrator` and a descriptor with no `dehydrator` entry,
`dehydrator_cls` is the fixed, late-imported `dehydrate.base.Dehydrator`
class — NOT the enclosing dehydrator's own type. -/
theorem dehydrator_cls_not_enclosing_type_cex :
    ComplexField.dehydrator_cls fU = .ok baseDehydratorCls
    ∧ baseDehydratorCls ≠ .clsRef fU.dehydrator.cls :=
  ⟨rfl, fun h => absurd (PyVal.clsRef.inj h) (by decide)⟩

/-- Claim C8, amended.  For every complex field whose descriptor mapping
has no `dehydrator` entry, the nested dehydrator class used by
`build_value` is the base `Dehydrator` class imported late from
`dehydrate.base` (to avoid a circular import), regardless of the enclosing
dehydrator's type. -/
theorem dehydrator_cls_defaults_to_base_class
    (m : List (String × PyVal)) (d : Dehydrator) (sub : PyVal)
    (h : lookupStr m "dehydrator" = Option.none) :
    ComplexField.dehydrator_cls ⟨d, .mapping m, sub⟩ = .ok baseDehydratorCls := by
  simp [ComplexField.dehydrator_cls, mGet, h]

/-- Claim C8, witness for the amended theorem at a concrete input. -/
theorem dehydrator_cls_defaults_to_base_class_witness :
    ComplexField.dehydrator_cls ⟨dehU, .mapping [("target", .str "x")], .none⟩ =
      .ok baseDehydratorCls :=
  dehydrator_cls_defaults_to_base_class [("target", .str "x")] dehU .none rfl

/-- Claim C9 (confirmed): `is_pair` is length-based over values passing the
Python 2 `Iterable` check, not type-tag-based.  A two-character string and
a two-element mapping both satisfy it; `parse_spec` consequently
destructures the spec `"ab"` into target_info `"a"` and substitution `"b"`
rather than treating `"ab"` as a bare name.  In general, whenever `len(v)`
is defined, `is_pair v` is true exactly when `v` is iterable with length
two, and conversely `is_pair v = true` forces iterability and length
two. -/
theorem is_pair_length_based :
    is_pair (.str "ab") = .ok true
    ∧ is_pair (.mapping [("a", .none), ("b", .none)]) = .ok true
    ∧ Field.parse_spec Field.validate_target_info (.str "ab") =
        .ok (.str "a", .str "b")
    ∧ (∀ (v : PyVal) (n : Nat), pyLen v = .ok n →
        is_pair v = .ok (is_iterable v && (n == 2)))
    ∧ (∀ v : PyVal, is_pair v = .ok true →
        is_iterable v = true ∧ pyLen v = .ok 2) := by
  refine ⟨rfl, rfl, rfl, ?_, ?_⟩
  · intro v n h
    by_cases hit : is_iterable v = true
    · simp [is_pair, hit, h]
    · simp only [Bool.not_eq_true] at hit
      simp [is_pair, hit]
  · intro v h
    unfold is_pair at h
    by_cases hit : is_iterable v = true
    · rw [hit] at h
      simp only [if_true] at h
      refine ⟨hit, ?_⟩
      cases hc : pyLen v with
      | error e => rw [hc] at h; exact absurd h (by simp)
      | ok n =>
        rw [hc] at h
        simp only [Except.ok.injEq] at h
        have hn : n = 2 := by simpa using h
        rw [hn]
    · simp only [Bool.not_eq_true] at hit
      rw [hit] at h
      simp at h

/-- Claim C9, witness for the quantified parts at concrete inputs. -/
theorem is_pair_length_based_witness :
    is_pair (.tuple [.none, .none]) =
      .ok (is_iterable (.tuple [.none, .none]) && (2 == 2))
    ∧ (is_iterable (.tuple [.none, .none]) = true
        ∧ pyLen (.tuple [.none, .none]) = .ok 2) :=
  ⟨is_pair_length_based.2.2.2.1 (.tuple [.none, .none]) 2 rfl,
   is_pair_length_based.2.2.2.2 (.tuple [.none, .none]) rfl⟩

/-- Claim C10, counterexample.  The mapping
`{"target": "x", "iterable": True}` contains `target` and lacks `fields`,
and constructing a `ComplexField` from it does succeed — but only because
the two-entry mapping is destructured into its two KEYS, so the resulting
field's `target_info` is the string `"target"`, and the `fields` property
then raises `AttributeError` (strings have no `.get`) instead of returning
`None`. -/
theorem target_no_fields_two_entry_cex :
    Field.parse_spec ComplexField.validate_target_info
      (.mapping [("target", .str "x"), ("iterable", .boolean true)]) =
      .ok (.str "target", .str "iterable")
    ∧ ComplexField.fields ⟨deh0, .str "target", .str "iterable"⟩ =
      .error (.attributeError "object has no attribute get") :=
  ⟨rfl, rfl⟩

/-- Claim C10, amended.  For a mapping spec that contains a `target` key,
has no `fields` key, and does not have exactly two entries (a two-entry
mapping is misclassified as a pair and destructured into its keys),
construction succeeds without raising — validation checks only the
presence of `target` — the `fields` property returns `None`, and that
`None` is what `build_value` passes as the `fields` argument of the nested
dehydrator's constructor (second conjunct, for every nested dehydrate
operation). -/
theorem no_fields_entry_defaults_to_none :
    (∀ (m : List (String × PyVal)) (d : Dehydrator),
      m.any (fun kv => kv.1 == "target") = true →
      lookupStr m "fields" = Option.none →
      (m.length == 2) = false →
      Field.parse_spec ComplexField.validate_target_info (.mapping m) =
        .ok (.mapping m, .none)
      ∧ ComplexField.fields ⟨d, .mapping m, .none⟩ = .ok .none)
    ∧ (∀ dehyd : PyVal → PyVal → PyVal → Except PyErr PyVal,
      ComplexField.build_value dehyd f10 (.obj []) =
        dehyd baseDehydratorCls .none (.obj [])) := by
  refine ⟨?_, fun _ => rfl⟩
  intro m d hk hf hl
  constructor
  · simp [Field.parse_spec, Field.destructure, is_pair, is_iterable, pyLen, hl,
      ComplexField.validate_target_info, pyContains, hk]
  · simp [ComplexField.fields, mGet, hf]

/-- Claim C10, witness for the amended theorem at a concrete input. -/
theorem no_fields_entry_defaults_to_none_witness :
    (Field.parse_spec ComplexField.validate_target_info
        (.mapping [("target", .str "x")]) =
        .ok (.mapping [("target", .str "x")], .none)
      ∧ ComplexField.fields ⟨deh0, .mapping [("target", .str "x")], .none⟩ =
        .ok .none)
    ∧ ComplexField.build_value dehydShallow f10 (.obj []) =
        dehydShallow baseDehydratorCls .none (.obj []) :=
  ⟨no_fields_entry_defaults_to_none.1 [("target", .str "x")] deh0 rfl rfl rfl,
   no_fields_entry_defaults_to_none.2 dehydShallow⟩
